import Mathlib

/-!
Verification of the nutrition-dashboard data pipeline.

This file gives a shallow embedding of the repository's three source files
(`data_cleaning.py`, `analysis_main.py`, `dashboard.py`) and proves the frozen
claims about them.

Modelling conventions:
* A raw pandas DataFrame is a `RawTable`: a list of column names plus rows,
  each row an association list from column name to an optional cell value
  (`none` models a missing value / NaN in that cell).
* The cleaned CSV that the query layer reads is typed: a `List CleanRow`
  with the fixed cleaned schema (`Year : Int`, `Data_Value : ℚ`, strings
  elsewhere).  Floating-point `Data_Value` is modelled by rationals; no
  claim depends on rounding.
* `clean_data` returns `Except CleanError RawTable`.  `Except.ok` models the
  source writing the cleaned CSV; both error constructors model the two ways
  the source aborts without writing output: `dropnaKeyError` is the KeyError
  raised by `df.dropna(subset=['Data_Value'])` when the column is absent, and
  `missingColumns` is the "Warning: Missing columns" message followed by a
  plain `return` (no file written in either case).
* Pandas `Series.corr` returns NaN when there are fewer than two pairs or a
  zero variance; `PearsonResult` records the count and the centred sums, and
  `PearsonResult.isNaN` is true exactly in the NaN cases.  The numeric value
  of the coefficient (which needs a real square root) is not used by any
  claim, only its NaN-ness.
-/

/-! ## Part 1: raw tables and the cleaning pipeline (`data_cleaning.py`) -/

/-- One raw row: an association list from column name to optional cell value.
`none` models a NaN cell; a column absent from the list is likewise read as
NaN by `getCell`. -/
abbrev RawRow := List (String × Option String)

/-- A raw pandas DataFrame: its column list and its rows. -/
structure RawTable where
  cols : List String
  rows : List RawRow
deriving DecidableEq, Repr

/-- Read one cell of a raw row; a missing entry is a missing value. -/
def getCell (r : RawRow) (c : String) : Option String :=
  (List.lookup c r).join

/-- `cols_to_keep` from `data_cleaning.py` (lines 22-25). -/
def cols_to_keep : List String :=
  ["YearStart", "LocationAbbr", "LocationDesc", "Class", "Topic", "Question",
   "Data_Value", "Data_Value_Unit", "StratificationCategory1",
   "Stratification1", "GeoLocation"]

/-- The fixed cleaned schema: `cols_to_keep` with `YearStart` renamed. -/
def cleaned_schema : List String :=
  ["Year", "LocationAbbr", "LocationDesc", "Class", "Topic", "Question",
   "Data_Value", "Data_Value_Unit", "StratificationCategory1",
   "Stratification1", "GeoLocation"]

/-- The rename map `{'YearStart': 'Year'}` of `data_cleaning.py` line 35. -/
def renameCol (c : String) : String :=
  if c == "YearStart" then "Year" else c

/-- The two ways `clean_data` aborts without writing its output file. -/
inductive CleanError
  /-- `df.dropna(subset=['Data_Value'])` raises `KeyError` when the
  `Data_Value` column is absent (line 16, before the schema check). -/
  | dropnaKeyError
  /-- the `missing_cols` check prints a warning naming the missing columns
  and returns without writing output (lines 27-30). -/
  | missingColumns (missing : List String)
deriving DecidableEq, Repr

/-- Project one already-filtered row onto the kept columns, renaming
`YearStart` to `Year` (lines 32 and 35 of `data_cleaning.py`). -/
def projectRow (r : RawRow) : RawRow :=
  cols_to_keep.map (fun c => (renameCol c, getCell r c))

/-- `clean_data` of `data_cleaning.py` applied to an already-loaded table:
drop rows whose `Data_Value` is missing (line 16; raises `KeyError` when the
column is absent), check that every kept column exists (lines 27-30), then
project and rename (lines 32 and 35).  `Except.ok` models the successful
`to_csv` write of line 39. -/
def clean_data (df : RawTable) : Except CleanError RawTable :=
  if "Data_Value" ∈ df.cols then
    let rowsClean := df.rows.filter (fun r => (getCell r "Data_Value").isSome)
    let missing := cols_to_keep.filter (fun c => decide (c ∉ df.cols))
    if missing.isEmpty then
      Except.ok { cols := cols_to_keep.map renameCol
                  rows := rowsClean.map projectRow }
    else
      Except.error (CleanError.missingColumns missing)
  else
    Except.error CleanError.dropnaKeyError

/-- The output file that a run of `clean_data` leaves behind: `none` when the
pipeline aborted on any error path. -/
def writtenOutput (df : RawTable) : Option RawTable :=
  (clean_data df).toOption

/-! ## Part 2: the cleaned table and the query layer
(`analysis_main.py` and `dashboard.py`) -/

/-- One record of the cleaned CSV, typed with the fixed cleaned schema. -/
structure CleanRow where
  Year : Int
  LocationAbbr : String
  LocationDesc : String
  Class : String
  Topic : String
  Question : String
  Data_Value : ℚ
  Data_Value_Unit : String
  StratificationCategory1 : String
  Stratification1 : String
  GeoLocation : String
deriving DecidableEq, Repr

/-- Arithmetic mean, as pandas `GroupBy.mean` computes it on each
(nonempty) group. -/
def mean (xs : List ℚ) : ℚ := xs.sum / xs.length

/-- The `'Total'` stratification filter of `analysis_main.py` line 20. -/
def df_total (df : List CleanRow) : List CleanRow :=
  df.filter (fun r => r.StratificationCategory1 == "Total")

/-- Ordering on the `(Year, Class)` group keys: pandas `groupby` sorts its
group keys lexicographically. -/
def keyLe (a b : Int × String) : Bool :=
  a.1 < b.1 || (a.1 == b.1 && (a.2 < b.2 || a.2 == b.2))

/-- `yearly_trends` of `analysis_main.py` line 22:
`df_total.groupby(['Year', 'Class'])['Data_Value'].mean()`, one row per
distinct `(Year, Class)` key (in sorted key order), carrying the mean of
`Data_Value` over that group. -/
def yearly_trends (df : List CleanRow) : List ((Int × String) × ℚ) :=
  let tot := df_total df
  let keys := ((tot.map (fun r => (r.Year, r.Class))).dedup).mergeSort keyLe
  keys.map (fun k =>
    (k, mean ((tot.filter (fun r => (r.Year, r.Class) == k)).map
      (fun r => r.Data_Value))))

/-- `latest_year = df['Year'].max()` (`analysis_main.py` line 36), computed
over the full cleaned table.  The default `0` is an embedding artifact for
the empty table (where pandas would give NaN); no claim touches that case. -/
def latest_year (df : List CleanRow) : Int :=
  ((df.map (fun r => r.Year)).maximum).unbot' 0

/-- The question text `q_obesity` (`analysis_main.py` line 94,
`dashboard.py` line 189). -/
def q_obesity : String :=
  "Percent of adults aged 18 years and older who have obesity"

/-- The question text `q_activity` (`analysis_main.py` line 95,
`dashboard.py` line 190). -/
def q_activity : String :=
  "Percent of adults who engage in no leisure-time physical activity"

/-- The geographic-ranking filter (`analysis_main.py` lines 40-43):
`Year == y`, `Class == c`, `StratificationCategory1 == 'Total'`,
`Question == q`. -/
def geoFilter (df : List CleanRow) (y : Int) (c q : String) : List CleanRow :=
  df.filter (fun r =>
    r.Year == y && r.Class == c &&
    r.StratificationCategory1 == "Total" && r.Question == q)

/-- Descending comparison used by
`sort_values('Data_Value', ascending=False)`. -/
def valueDesc (a b : CleanRow) : Bool := b.Data_Value ≤ a.Data_Value

/-- The geographic-ranking query (`analysis_main.py` lines 40-46): filter,
then sort by `Data_Value` descending. -/
def geographic_ranking (df : List CleanRow) (y : Int) (c q : String) :
    List CleanRow :=
  (geoFilter df y c q).mergeSort valueDesc

/-- `top_10 = obesity_geo_sorted.head(10)` (`analysis_main.py` line 49). -/
def top_10 (gr : List CleanRow) : List CleanRow := gr.take 10

/-- `bottom_10 = obesity_geo_sorted.tail(10)` (`analysis_main.py` line 50). -/
def bottom_10 (gr : List CleanRow) : List CleanRow :=
  gr.drop (gr.length - 10)

/-- The geographic analysis as `analysis_main.py` runs it: the ranking at
the full-table latest year, for the fixed class and question constants of
lines 40-43. -/
def analyze_geo (df : List CleanRow) : List CleanRow :=
  geographic_ranking df (latest_year df) "Obesity / Weight Status" q_obesity

/-- The correlation pre-filter `df[(df['Year'] == y) &
(df['StratificationCategory1'] == 'Total')]` (`analysis_main.py` line 88,
`dashboard.py` line 187). -/
def corrFilter (df : List CleanRow) (y : Int) : List CleanRow :=
  df.filter (fun r => r.Year == y && r.StratificationCategory1 == "Total")

/-- Exact-equality selection of the obesity metric
(`analysis_main.py` line 97, `dashboard.py` line 200). -/
def obesityRows (dfc : List CleanRow) : List CleanRow :=
  dfc.filter (fun r => r.Question == q_obesity)

/-- Exact-equality selection of the inactivity metric
(`analysis_main.py` line 98, `dashboard.py` line 201). -/
def activityRows (dfc : List CleanRow) : List CleanRow :=
  dfc.filter (fun r => r.Question == q_activity)

/-- `pd.merge(left, right, on=key)`: the inner join on a string key, left
row order outer, matching right rows inner. -/
def mergeOn {α β : Type} (left : List (String × α)) (right : List (String × β)) :
    List (String × α × β) :=
  left.flatMap (fun l =>
    (right.filter (fun r => r.1 == l.1)).map (fun r => (l.1, l.2, r.2)))

/-- The data pandas `Series.corr` works from: the pair count and the centred
sums of squares and products.  The coefficient itself is
`sxy / sqrt (sxx * syy)`. -/
structure PearsonResult where
  n : Nat
  sxy : ℚ
  sxx : ℚ
  syy : ℚ
deriving DecidableEq, Repr

/-- Pandas `Series.corr` returns NaN exactly when there are fewer than two
pairs or one of the variances is zero. -/
def PearsonResult.isNaN (p : PearsonResult) : Bool :=
  p.n < 2 || p.sxx == 0 || p.syy == 0

/-- Compute the Pearson sums for a list of value pairs. -/
def pearsonOf (ps : List (ℚ × ℚ)) : PearsonResult :=
  let xs := ps.map (fun p => p.1)
  let ys := ps.map (fun p => p.2)
  let mx := mean xs
  let my := mean ys
  { n := ps.length
    sxy := (ps.map (fun p => (p.1 - mx) * (p.2 - my))).sum
    sxx := (xs.map (fun x => (x - mx) ^ 2)).sum
    syy := (ys.map (fun y => (y - my) ^ 2)).sum }

/-- What a correlation query reports to its consumer: either a distinct
not-computable outcome (a user-visible warning, no coefficient), or a
coefficient (possibly NaN) presented as the result. -/
inductive CorrOutcome
  | notComputable
  | coeff (p : PearsonResult)
deriving DecidableEq, Repr

/-- The joined obesity/inactivity pairs of `analysis_main.py` line 100,
keyed by `LocationAbbr`, at the full-table latest year. -/
def analysisMerged (df : List CleanRow) : List (String × ℚ × ℚ) :=
  let dfc := corrFilter df (latest_year df)
  mergeOn ((obesityRows dfc).map (fun r => (r.LocationAbbr, r.Data_Value)))
          ((activityRows dfc).map (fun r => (r.LocationAbbr, r.Data_Value)))

/-- The batch correlation analysis (`analysis_main.py` lines 97-103): it
computes `merged['Obesity_Rate'].corr(merged['Inactivity_Rate'])`
unconditionally and reports the number — there is no emptiness check, so an
empty join is reported as a NaN coefficient, never as `notComputable`. -/
def analysisCorrOutcome (df : List CleanRow) : CorrOutcome :=
  CorrOutcome.coeff
    (pearsonOf ((analysisMerged df).map (fun t => (t.2.1, t.2.2))))

/-- Python's substring containment `needle in hay`. -/
def substrB (needle hay : String) : Bool :=
  decide (needle.data <:+: hay.data)

/-- `any(q in question for question in dfc['Question'].unique())`
(`dashboard.py` lines 193-195): the substring-based existence check. -/
def hasQ (dfc : List CleanRow) (q : String) : Bool :=
  ((dfc.map (fun r => r.Question)).dedup).any (fun s => substrB q s)

/-- The dashboard's joined pairs (`dashboard.py` lines 200-203); the obesity
side also carries `LocationDesc`. -/
def dashMerged (df : List CleanRow) (y : Int) :
    List (String × (ℚ × String) × ℚ) :=
  let dfc := corrFilter df y
  mergeOn
    ((obesityRows dfc).map (fun r =>
      (r.LocationAbbr, (r.Data_Value, r.LocationDesc))))
    ((activityRows dfc).map (fun r => (r.LocationAbbr, r.Data_Value)))

/-- The dashboard correlation view (`dashboard.py` lines 192-225): a
substring existence check decides whether the exact-match query is attempted
at all; if the join is empty a warning is shown instead of a coefficient;
otherwise the coefficient is displayed. -/
def dashboardCorrOutcome (df : List CleanRow) (y : Int) : CorrOutcome :=
  let dfc := corrFilter df y
  if hasQ dfc q_obesity && hasQ dfc q_activity then
    let merged := dashMerged df y
    if merged.isEmpty then
      CorrOutcome.notComputable
    else
      CorrOutcome.coeff
        (pearsonOf (merged.map (fun t => (t.2.1.1, t.2.2))))
  else
    CorrOutcome.notComputable

/-! ## Part 3: helper lemmas and example tables for the cleaning pipeline -/

/-- Inversion: a successful run of `clean_data` produces exactly the
projected, renamed rows that survive the `Data_Value` filter. -/
theorem clean_data_ok_inv {df out : RawTable}
    (h : clean_data df = Except.ok out) :
    out = { cols := cols_to_keep.map renameCol
            rows := (df.rows.filter
              (fun r => (getCell r "Data_Value").isSome)).map projectRow } := by
  simp only [clean_data] at h
  by_cases hd : "Data_Value" ∈ df.cols
  · by_cases hm :
        (cols_to_keep.filter (fun c => decide (c ∉ df.cols))).isEmpty = true
    · simp only [hd, if_true, hm] at h
      exact (Except.ok.inj h).symm
    · simp only [hd, if_true, hm, if_false] at h
      exact absurd h (by simp)
  · simp only [hd, if_false] at h
    exact absurd h (by simp)

/-- Projection preserves every kept cell: looking up a renamed column in the
projected row gives the raw row's cell for the original column. -/
theorem projectRow_getCell (r : RawRow) :
    ∀ c ∈ cols_to_keep, getCell (projectRow r) (renameCol c) = getCell r c := by
  intro c hc
  simp only [cols_to_keep, List.mem_cons, List.not_mem_nil, or_false] at hc
  rcases hc with rfl | rfl | rfl | rfl | rfl | rfl | rfl | rfl | rfl | rfl | rfl <;>
    simp [projectRow, cols_to_keep, renameCol, getCell, List.lookup]

/-- A raw table whose column list lacks several required columns. -/
def exMissingCol : RawTable :=
  { cols := ["YearStart", "Data_Value"], rows := [] }

/-- A raw table with no `Data_Value` column at all. -/
def exNoDataValue : RawTable :=
  { cols := ["YearStart", "LocationAbbr"], rows := [] }

/-- A complete raw row (all cells present). -/
def exRawRow1 : RawRow :=
  [("YearStart", some "2020"), ("LocationAbbr", some "AL"),
   ("LocationDesc", some "Alabama"), ("Class", some "Obesity / Weight Status"),
   ("Topic", some "Obesity"), ("Question", some "q"),
   ("Data_Value", some "32.0"), ("Data_Value_Unit", some "%"),
   ("StratificationCategory1", some "Total"), ("Stratification1", some "Total"),
   ("GeoLocation", some "POINT (-86.8 32.8)")]

/-- A raw row whose `Data_Value` cell is missing (NaN). -/
def exRawRow2 : RawRow :=
  [("YearStart", some "2021"), ("LocationAbbr", some "TX"),
   ("LocationDesc", some "Texas"), ("Class", some "Physical Activity"),
   ("Topic", some "Activity"), ("Question", some "q"),
   ("Data_Value", none), ("Data_Value_Unit", some "%"),
   ("StratificationCategory1", some "Total"), ("Stratification1", some "Total"),
   ("GeoLocation", some "POINT (-99.4 31.5)")]

/-- A well-formed raw table: all required columns, one complete row and one
row with a missing `Data_Value`. -/
def exRawOK : RawTable :=
  { cols := cols_to_keep, rows := [exRawRow1, exRawRow2] }

/-- The cleaned table that `clean_data` produces from `exRawOK`. -/
def exCleanOK : RawTable :=
  { cols := cleaned_schema, rows := [projectRow exRawRow1] }

/-! ## Part 4: claims about the cleaning pipeline -/

/-- C2: for every raw table missing at least one required column from the
fixed cleaned schema, the cleaning operation fails (with the reported
schema-validation abort) and produces no output file. -/
theorem clean_missing_column_fails :
    ∀ df : RawTable, (∃ c ∈ cols_to_keep, c ∉ df.cols) →
      (∃ e, clean_data df = Except.error e) ∧ writtenOutput df = none := by
  intro df h
  have herr : ∃ e, clean_data df = Except.error e := by
    by_cases hd : "Data_Value" ∈ df.cols
    · obtain ⟨c, hc, hnc⟩ := h
      refine ⟨CleanError.missingColumns
        (cols_to_keep.filter (fun c => decide (c ∉ df.cols))), ?_⟩
      have hmem : c ∈ cols_to_keep.filter (fun c => decide (c ∉ df.cols)) :=
        List.mem_filter.mpr ⟨hc, by simpa using hnc⟩
      have hne :
          (cols_to_keep.filter (fun c => decide (c ∉ df.cols))).isEmpty = false := by
        cases hfil : cols_to_keep.filter (fun c => decide (c ∉ df.cols)) with
        | nil => rw [hfil] at hmem; exact absurd hmem (List.not_mem_nil c)
        | cons a l => simp
      simp [clean_data, hd, hne]
      exact ⟨c, hc, hnc⟩
    · exact ⟨CleanError.dropnaKeyError, by simp [clean_data, hd]⟩
  obtain ⟨e, he⟩ := herr
  exact ⟨⟨e, he⟩, by simp [writtenOutput, he, Except.toOption]⟩

/-- Witness for C2 at a concrete table missing `LocationAbbr` (among
others): cleaning errors out and writes nothing. -/
theorem clean_missing_column_fails_witness :
    (∃ e, clean_data exMissingCol = Except.error e) ∧
      writtenOutput exMissingCol = none :=
  clean_missing_column_fails exMissingCol ⟨"LocationAbbr", by decide, by decide⟩

/-- C3: every successful cleaning output has at most as many rows as the
input, is exactly the projection of the raw rows whose `Data_Value` was
present, keeps every such raw row, and keeps nothing else (no other
missing-value handling). -/
theorem clean_row_filtering :
    ∀ (df out : RawTable), clean_data df = Except.ok out →
      out.rows.length ≤ df.rows.length
    ∧ out.rows = (df.rows.filter
        (fun r => (getCell r "Data_Value").isSome)).map projectRow
    ∧ (∀ r ∈ df.rows, (getCell r "Data_Value").isSome → projectRow r ∈ out.rows)
    ∧ (∀ pr ∈ out.rows, ∃ r ∈ df.rows,
        (getCell r "Data_Value").isSome ∧ pr = projectRow r) := by
  intro df out h
  have hinv := clean_data_ok_inv h
  subst hinv
  refine ⟨?_, rfl, ?_, ?_⟩
  · simpa using List.length_filter_le
      (fun r => (getCell r "Data_Value").isSome) df.rows
  · intro r hr hv
    exact List.mem_map_of_mem _ (List.mem_filter.mpr ⟨hr, hv⟩)
  · intro pr hpr
    obtain ⟨r, hr, rfl⟩ := List.mem_map.mp hpr
    have hf := List.mem_filter.mp hr
    exact ⟨r, hf.1, hf.2, rfl⟩

/-- Witness for C3: on `exRawOK` (two raw rows, one with a missing
`Data_Value`), the cleaned output has one row, the projection of the
complete raw row. -/
theorem clean_row_filtering_witness :
    exCleanOK.rows.length ≤ exRawOK.rows.length ∧
      projectRow exRawRow1 ∈ exCleanOK.rows := by
  have h := clean_row_filtering exRawOK exCleanOK (by rfl)
  exact ⟨h.1, h.2.2.1 exRawRow1 (by decide) (by decide)⟩

/-- C4: every successful cleaning output's column list is exactly the fixed
cleaned schema, with `Year` present and `YearStart` absent. -/
theorem clean_schema_contract :
    ∀ (df out : RawTable), clean_data df = Except.ok out →
      out.cols = cleaned_schema ∧ "Year" ∈ out.cols ∧ "YearStart" ∉ out.cols := by
  intro df out h
  have hc : out.cols = cols_to_keep.map renameCol := by
    rw [clean_data_ok_inv h]
  rw [hc]
  exact ⟨by decide, by decide, by decide⟩

/-- Witness for C4 at the concrete table `exRawOK`. -/
theorem clean_schema_contract_witness :
    exCleanOK.cols = cleaned_schema ∧ "Year" ∈ exCleanOK.cols ∧
      "YearStart" ∉ exCleanOK.cols :=
  clean_schema_contract exRawOK exCleanOK (by rfl)

/-- C9: when the `Data_Value` column itself is absent, cleaning fails at the
row-filtering step (the `dropna` KeyError), before the schema-validation
check runs — so the missing-column warning path never reports an absent
`Data_Value` column, and no output file is written. -/
theorem dropna_keyerror_precedes_schema_check :
    ∀ df : RawTable, "Data_Value" ∉ df.cols →
      clean_data df = Except.error CleanError.dropnaKeyError
    ∧ (∀ ms, clean_data df ≠ Except.error (CleanError.missingColumns ms))
    ∧ writtenOutput df = none := by
  intro df hd
  have h1 : clean_data df = Except.error CleanError.dropnaKeyError := by
    simp [clean_data, hd]
  refine ⟨h1, ?_, ?_⟩
  · intro ms hcontra
    rw [h1] at hcontra
    exact CleanError.noConfusion (Except.error.inj hcontra)
  · simp [writtenOutput, h1, Except.toOption]

/-- Witness for C9 at a concrete table lacking `Data_Value`. -/
theorem dropna_keyerror_precedes_schema_check_witness :
    clean_data exNoDataValue = Except.error CleanError.dropnaKeyError ∧
      writtenOutput exNoDataValue = none := by
  have h := dropna_keyerror_precedes_schema_check exNoDataValue (by decide)
  exact ⟨h.1, h.2.2⟩

/-- C10: cleaning only drops rows, projects columns and renames `YearStart`
to `Year`: the output rows are exactly the surviving raw rows, in input
order, and every projected cell equals the raw row's cell for the
corresponding original column. -/
theorem clean_projection_preserves_values :
    ∀ (df out : RawTable), clean_data df = Except.ok out →
      out.rows = (df.rows.filter
        (fun r => (getCell r "Data_Value").isSome)).map projectRow
    ∧ (∀ pr ∈ out.rows, ∃ r ∈ df.rows,
        (getCell r "Data_Value").isSome ∧ pr = projectRow r ∧
        ∀ c ∈ cols_to_keep, getCell pr (renameCol c) = getCell r c) := by
  intro df out h
  have hinv := clean_data_ok_inv h
  subst hinv
  refine ⟨rfl, ?_⟩
  intro pr hpr
  obtain ⟨r, hr, rfl⟩ := List.mem_map.mp hpr
  have hf := List.mem_filter.mp hr
  exact ⟨r, hf.1, hf.2, rfl, projectRow_getCell r⟩

/-- Witness for C10: in the concrete cleaned output, the projected row's
cells equal the raw row's cells on every kept column. -/
theorem clean_projection_preserves_values_witness :
    ∃ r ∈ exRawOK.rows, (getCell r "Data_Value").isSome ∧
      projectRow exRawRow1 = projectRow r ∧
      ∀ c ∈ cols_to_keep,
        getCell (projectRow exRawRow1) (renameCol c) = getCell r c :=
  (clean_projection_preserves_values exRawOK exCleanOK (by rfl)).2
    (projectRow exRawRow1) (by simp [exCleanOK])

/-! ## Part 5: claims about the query layer -/

/-- The group keys of `yearly_trends` are the sorted deduplicated
`(Year, Class)` pairs of the `'Total'` rows. -/
theorem yearly_trends_keys (df : List CleanRow) :
    (yearly_trends df).map Prod.fst =
      (((df_total df).map (fun r => (r.Year, r.Class))).dedup).mergeSort keyLe := by
  simp only [yearly_trends, List.map_map]
  exact List.map_id _

/-- First synthetic row of the P4 scenario: (2020, Obesity / Weight Status,
Total) with `Data_Value` 30. -/
def exC5row1 : CleanRow :=
  { Year := 2020, LocationAbbr := "AL", LocationDesc := "Alabama",
    Class := "Obesity / Weight Status", Topic := "t", Question := "q",
    Data_Value := 30, Data_Value_Unit := "%",
    StratificationCategory1 := "Total", Stratification1 := "Total",
    GeoLocation := "" }

/-- Second synthetic row: same group, `Data_Value` 40. -/
def exC5row2 : CleanRow :=
  { exC5row1 with
    LocationAbbr := "TX"
    LocationDesc := "Texas"
    Data_Value := 40 }

/-- The two-row synthetic cleaned table of P4. -/
def exC5 : List CleanRow := [exC5row1, exC5row2]

/-- C5: the temporal-trend query keeps exactly the `'Total'` rows, groups
them by `(Year, Class)` (each group appearing exactly once), returns the
arithmetic mean of `Data_Value` per group, and on the two-row P4 table it
returns the single group row with value 35. -/
theorem temporal_trend_group_mean :
    (∀ df : List CleanRow,
        (∀ k, k ∈ (yearly_trends df).map Prod.fst ↔
          ∃ r ∈ df, r.StratificationCategory1 = "Total" ∧ (r.Year, r.Class) = k)
      ∧ ((yearly_trends df).map Prod.fst).Nodup
      ∧ (∀ k m, (k, m) ∈ yearly_trends df →
          m = mean (((df_total df).filter
            (fun r => (r.Year, r.Class) == k)).map (fun r => r.Data_Value))))
  ∧ yearly_trends exC5 = [((2020, "Obesity / Weight Status"), 35)] := by
  constructor
  · intro df
    refine ⟨?_, ?_, ?_⟩
    · intro k
      rw [yearly_trends_keys]
      simp only [List.mem_mergeSort, List.mem_dedup, List.mem_map, df_total,
        List.mem_filter, beq_iff_eq]
      constructor
      · rintro ⟨r, ⟨hr, hs⟩, hk⟩
        exact ⟨r, hr, hs, hk⟩
      · rintro ⟨r, hr, hs, hk⟩
        exact ⟨r, ⟨hr, hs⟩, hk⟩
    · rw [yearly_trends_keys]
      exact ((List.mergeSort_perm _ _).nodup_iff).mpr (List.nodup_dedup _)
    · intro k m hkm
      simp only [yearly_trends, List.mem_map] at hkm
      obtain ⟨k', _, heq⟩ := hkm
      injection heq with h1 h2
      subst h1
      exact h2.symm
  · simp [yearly_trends, df_total, exC5, exC5row1, exC5row2, List.mergeSort,
      List.dedup, mean, keyLe]
    norm_num

/-- Witness for C5: instantiating the group-membership direction of the
theorem at the concrete P4 table. -/
theorem temporal_trend_group_mean_witness :
    (2020, "Obesity / Weight Status") ∈ (yearly_trends exC5).map Prod.fst :=
  ((temporal_trend_group_mean.1 exC5).1 _).mpr
    ⟨exC5row1, by simp [exC5], rfl, rfl⟩

/-- The first of five synthetic P5 states. -/
def exC6row1 : CleanRow :=
  { exC5row1 with
    Year := 2023
    Question := q_obesity
    Data_Value := 31 }

/-- Five synthetic states with distinct `Data_Value` for the fixed
(2023, Obesity / Weight Status, `q_obesity`, Total) filter (P5). -/
def exC6 : List CleanRow :=
  [ exC6row1,
    { exC5row1 with
      Year := 2023
      LocationAbbr := "TX"
      LocationDesc := "Texas"
      Question := q_obesity
      Data_Value := 35 },
    { exC5row1 with
      Year := 2023
      LocationAbbr := "CO"
      LocationDesc := "Colorado"
      Question := q_obesity
      Data_Value := 25 },
    { exC5row1 with
      Year := 2023
      LocationAbbr := "MS"
      LocationDesc := "Mississippi"
      Question := q_obesity
      Data_Value := 39 },
    { exC5row1 with
      Year := 2023
      LocationAbbr := "WV"
      LocationDesc := "West Virginia"
      Question := q_obesity
      Data_Value := 41 } ]

/-- `valueDesc` is transitive (as required by `mergeSort`). -/
theorem valueDesc_trans : ∀ a b c : CleanRow,
    valueDesc a b = true → valueDesc b c = true → valueDesc a c = true := by
  intro a b c h1 h2
  simp only [valueDesc, decide_eq_true_eq] at *
  exact le_trans h2 h1

/-- `valueDesc` is total (as required by `mergeSort`). -/
theorem valueDesc_total : ∀ a b : CleanRow,
    (valueDesc a b || valueDesc b a) = true := by
  intro a b
  simp only [valueDesc, Bool.or_eq_true, decide_eq_true_eq]
  exact le_total b.Data_Value a.Data_Value

/-- C6: the geographic-ranking query returns exactly the rows matching
`(Year == y, Class == c, Question == q, Total)`, sorted by `Data_Value`
descending (strictly so when the values are distinct); top-N and bottom-N
are independent head/tail slices, so on the five-row table `exC6` (fewer
than 20 matches) the two selections overlap. -/
theorem geographic_ranking_order :
    (∀ (df : List CleanRow) (y : Int) (c q : String),
        (geographic_ranking df y c q).Perm (geoFilter df y c q)
      ∧ (geographic_ranking df y c q).Pairwise
          (fun a b => b.Data_Value ≤ a.Data_Value)
      ∧ (((geographic_ranking df y c q).map (fun r => r.Data_Value)).Nodup →
          (geographic_ranking df y c q).Pairwise
            (fun a b => b.Data_Value < a.Data_Value))
      ∧ top_10 (geographic_ranking df y c q) =
          (geographic_ranking df y c q).take 10
      ∧ bottom_10 (geographic_ranking df y c q) =
          (geographic_ranking df y c q).drop
            ((geographic_ranking df y c q).length - 10))
  ∧ (geographic_ranking exC6 2023 "Obesity / Weight Status" q_obesity).length = 5
  ∧ ∃ r, r ∈ top_10 (geographic_ranking exC6 2023 "Obesity / Weight Status" q_obesity)
       ∧ r ∈ bottom_10 (geographic_ranking exC6 2023 "Obesity / Weight Status" q_obesity) := by
  have hgen : ∀ (df : List CleanRow) (y : Int) (c q : String),
      (geographic_ranking df y c q).Perm (geoFilter df y c q)
    ∧ (geographic_ranking df y c q).Pairwise
        (fun a b => b.Data_Value ≤ a.Data_Value)
    ∧ (((geographic_ranking df y c q).map (fun r => r.Data_Value)).Nodup →
        (geographic_ranking df y c q).Pairwise
          (fun a b => b.Data_Value < a.Data_Value))
    ∧ top_10 (geographic_ranking df y c q) =
        (geographic_ranking df y c q).take 10
    ∧ bottom_10 (geographic_ranking df y c q) =
        (geographic_ranking df y c q).drop
          ((geographic_ranking df y c q).length - 10) := by
    intro df y c q
    have hperm : (geographic_ranking df y c q).Perm (geoFilter df y c q) :=
      List.mergeSort_perm _ _
    have hsorted : (geographic_ranking df y c q).Pairwise
        (fun a b => b.Data_Value ≤ a.Data_Value) := by
      have h := List.sorted_mergeSort valueDesc_trans valueDesc_total
        (geoFilter df y c q)
      exact h.imp (fun hab => by
        simpa [valueDesc, decide_eq_true_eq] using hab)
    refine ⟨hperm, hsorted, ?_, rfl, rfl⟩
    intro hnd
    have hne : (geographic_ranking df y c q).Pairwise
        (fun a b => a.Data_Value ≠ b.Data_Value) :=
      List.pairwise_map.mp hnd
    exact (hsorted.and hne).imp
      (fun h => lt_of_le_of_ne h.1 (fun e => h.2 e.symm))
  refine ⟨hgen, ?_, ?_⟩
  · have hlen : (geographic_ranking exC6 2023 "Obesity / Weight Status"
        q_obesity).length =
        (geoFilter exC6 2023 "Obesity / Weight Status" q_obesity).length :=
      (hgen exC6 2023 "Obesity / Weight Status" q_obesity).1.length_eq
    rw [hlen]
    rfl
  · have hperm := (hgen exC6 2023 "Obesity / Weight Status" q_obesity).1
    have hlen : (geographic_ranking exC6 2023 "Obesity / Weight Status"
        q_obesity).length = 5 := by
      rw [hperm.length_eq]; rfl
    have hmem : exC6row1 ∈
        geographic_ranking exC6 2023 "Obesity / Weight Status" q_obesity := by
      rw [hperm.mem_iff]
      simp [geoFilter, exC6, exC6row1, exC5row1]
    refine ⟨exC6row1, ?_, ?_⟩
    · have : top_10 (geographic_ranking exC6 2023 "Obesity / Weight Status"
          q_obesity) =
          geographic_ranking exC6 2023 "Obesity / Weight Status" q_obesity := by
        simp only [top_10]
        exact List.take_of_length_le (by rw [hlen]; norm_num)
      rw [this]; exact hmem
    · have : bottom_10 (geographic_ranking exC6 2023 "Obesity / Weight Status"
          q_obesity) =
          geographic_ranking exC6 2023 "Obesity / Weight Status" q_obesity := by
        simp only [bottom_10, hlen]
        rfl
      rw [this]; exact hmem

/-- Witness for C6: on the five-state table the ranking is strictly
descending (the distinctness hypothesis discharged concretely). -/
theorem geographic_ranking_order_witness :
    (geographic_ranking exC6 2023 "Obesity / Weight Status" q_obesity).Pairwise
      (fun a b => b.Data_Value < a.Data_Value) :=
  (geographic_ranking_order.1 exC6 2023 "Obesity / Weight Status" q_obesity).2.2.1
    (by
      have hp := (List.mergeSort_perm
        (geoFilter exC6 2023 "Obesity / Weight Status" q_obesity) valueDesc).map
        (fun r => r.Data_Value)
      exact hp.nodup_iff.mpr (by decide))

/-- Every row's `Year` is bounded by the full-table `latest_year`. -/
theorem le_latest_year {df : List CleanRow} {r : CleanRow} (hr : r ∈ df) :
    r.Year ≤ latest_year df := by
  obtain ⟨m, hm⟩ : ∃ m : Int, (df.map (fun r => r.Year)).maximum = m := by
    cases hmax : (df.map (fun r => r.Year)).maximum with
    | bot =>
        have : df = [] := by simpa using List.maximum_eq_bot.mp hmax
        subst this
        exact absurd hr (List.not_mem_nil r)
    | coe m => exact ⟨m, rfl⟩
  have hle := List.le_maximum_of_mem
    (List.mem_map_of_mem (fun r => r.Year) hr) hm
  simpa [latest_year, hm] using hle

/-- On a nonempty table, `latest_year` is attained by some row. -/
theorem latest_year_mem {df : List CleanRow} (hne : df ≠ []) :
    ∃ r ∈ df, r.Year = latest_year df := by
  obtain ⟨m, hm⟩ : ∃ m : Int, (df.map (fun r => r.Year)).maximum = m := by
    cases hmax : (df.map (fun r => r.Year)).maximum with
    | bot =>
        have : df = [] := by simpa using List.maximum_eq_bot.mp hmax
        exact absurd this hne
    | coe m => exact ⟨m, rfl⟩
  obtain ⟨r, hr, hry⟩ := List.mem_map.mp (List.maximum_mem hm)
  exact ⟨r, hr, by simp [latest_year, hm, hry]⟩

/-- A table whose only row matching the geographic filters is from 2020,
while a non-`Total` row of another class carries the global maximum 2023. -/
def exC7row1 : CleanRow :=
  { exC5row1 with
    Year := 2020
    Question := q_obesity }

/-- The 2023 row: different class, non-`Total` stratification. -/
def exC7row2 : CleanRow :=
  { exC5row1 with
    Year := 2023
    Class := "Fruits and Vegetables"
    Question := "Percent of adults who report consuming fruit less than one time daily"
    StratificationCategory1 := "Income"
    Stratification1 := "$15,000 - $24,999" }

/-- The two-row table separating full-table max from filtered-subset max. -/
def exC7 : List CleanRow := [exC7row1, exC7row2]

/-- C7: "latest year" is `max(Year)` over the full cleaned table: it bounds
every row (also rows the later filters exclude), is attained, and is the
year every geographic-analysis result row carries.  On `exC7` the filtered
subset peaks at 2020 yet the query keys on the full-table max 2023, so its
result is empty — the latest year is not recomputed on the filtered
subset. -/
theorem latest_year_full_table :
    (∀ df : List CleanRow,
        (∀ r ∈ df, r.Year ≤ latest_year df)
      ∧ (df ≠ [] → ∃ r ∈ df, r.Year = latest_year df)
      ∧ (∀ r ∈ analyze_geo df, r.Year = latest_year df))
  ∧ latest_year exC7 = 2023
  ∧ (∃ r ∈ exC7, r.Class = "Obesity / Weight Status"
      ∧ r.StratificationCategory1 = "Total" ∧ r.Question = q_obesity
      ∧ r.Year = 2020)
  ∧ analyze_geo exC7 = [] := by
  refine ⟨?_, ?_, ?_, ?_⟩
  · intro df
    refine ⟨fun r hr => le_latest_year hr, latest_year_mem, ?_⟩
    intro r hr
    simp only [analyze_geo, geographic_ranking, List.mem_mergeSort,
      geoFilter, List.mem_filter, Bool.and_eq_true, beq_iff_eq] at hr
    exact hr.2.1.1.1
  · decide
  · exact ⟨exC7row1, by simp [exC7], rfl, rfl, rfl, rfl⟩
  · have hperm := List.mergeSort_perm
      (geoFilter exC7 (latest_year exC7) "Obesity / Weight Status" q_obesity)
      valueDesc
    have hfil : geoFilter exC7 (latest_year exC7) "Obesity / Weight Status"
        q_obesity = [] := by decide
    rw [hfil] at hperm
    exact hperm.eq_nil

/-- Witness for C7: the nonemptiness hypothesis discharged at `exC7`. -/
theorem latest_year_full_table_witness :
    ∃ r ∈ exC7, r.Year = latest_year exC7 :=
  (latest_year_full_table.1 exC7).2.1 (by decide)

/-- Joining against an empty right table yields nothing. -/
theorem mergeOn_right_nil {α β : Type} (l : List (String × α)) :
    mergeOn l ([] : List (String × β)) = [] := by
  simp [mergeOn]

/-- An empty obesity sub-table empties the dashboard join. -/
theorem dashMerged_eq_nil_of_obesity_nil {df : List CleanRow} {y : Int}
    (h : obesityRows (corrFilter df y) = []) : dashMerged df y = [] := by
  simp only [dashMerged, h, List.map_nil]
  rfl

/-- An empty inactivity sub-table empties the dashboard join. -/
theorem dashMerged_eq_nil_of_activity_nil {df : List CleanRow} {y : Int}
    (h : activityRows (corrFilter df y) = []) : dashMerged df y = [] := by
  simp only [dashMerged, h, List.map_nil]
  exact mergeOn_right_nil _

/-- The dashboard reports the not-computable warning whenever the join is
empty (both when the question gate fails and when it passes). -/
theorem dashboardCorrOutcome_of_merged_nil {df : List CleanRow} {y : Int}
    (h : dashMerged df y = []) :
    dashboardCorrOutcome df y = CorrOutcome.notComputable := by
  simp only [dashboardCorrOutcome]
  by_cases hg : (hasQ (corrFilter df y) q_obesity &&
      hasQ (corrFilter df y) q_activity) = true
  · simp [hg, h]
  · simp [hg]

/-- The dashboard reports the not-computable warning when the substring
gate fails. -/
theorem dashboardCorrOutcome_of_gate_false {df : List CleanRow} {y : Int}
    (h : (hasQ (corrFilter df y) q_obesity &&
      hasQ (corrFilter df y) q_activity) = false) :
    dashboardCorrOutcome df y = CorrOutcome.notComputable := by
  simp [dashboardCorrOutcome, h]

/-- Obesity row for `exC1`: location AL. -/
def exC1row1 : CleanRow :=
  { exC5row1 with
    Year := 2023
    Question := q_obesity
    Data_Value := 33 }

/-- Inactivity row for `exC1`: location TX (disjoint from AL). -/
def exC1row2 : CleanRow :=
  { exC5row1 with
    Year := 2023
    LocationAbbr := "TX"
    LocationDesc := "Texas"
    Class := "Physical Activity"
    Question := q_activity
    Data_Value := 26 }

/-- The P7 table: both metrics present but with disjoint `LocationAbbr`
sets, so the inner join on `LocationAbbr` is empty. -/
def exC1 : List CleanRow := [exC1row1, exC1row2]

/-- C1 counterexample: on the disjoint-location table the join of the batch
correlation query is empty, yet `analysis_main.py` reports a coefficient —
the Pearson NaN of the empty join — and never the distinct not-computable
outcome the claim requires. -/
theorem analysis_correlation_empty_join_counterexample :
    analysisMerged exC1 = []
    ∧ analysisCorrOutcome exC1 ≠ CorrOutcome.notComputable
    ∧ analysisCorrOutcome exC1 = CorrOutcome.coeff (pearsonOf [])
    ∧ (pearsonOf []).isNaN = true := by
  have hm : analysisMerged exC1 = [] := by decide
  have hout : analysisCorrOutcome exC1 = CorrOutcome.coeff (pearsonOf []) := by
    simp [analysisCorrOutcome, hm]
  refine ⟨hm, ?_, hout, rfl⟩
  rw [hout]
  intro hcontra
  exact CorrOutcome.noConfusion hcontra

/-- C1 (amended): the dashboard correlation query reports the distinct
not-computable outcome whenever either metric's filtered sub-table is empty
or the join matches zero locations; the batch analysis query performs no
such check — on an empty join it computes the Pearson result anyway and
reports it, and that result is NaN. -/
theorem correlation_empty_join_detection :
    ∀ (df : List CleanRow) (y : Int),
      ((obesityRows (corrFilter df y) = [] ∨ activityRows (corrFilter df y) = []
          ∨ dashMerged df y = []) →
        dashboardCorrOutcome df y = CorrOutcome.notComputable)
    ∧ (analysisMerged df = [] →
        analysisCorrOutcome df = CorrOutcome.coeff (pearsonOf [])
        ∧ (pearsonOf []).isNaN = true) := by
  intro df y
  constructor
  · intro h
    apply dashboardCorrOutcome_of_merged_nil
    rcases h with h | h | h
    · exact dashMerged_eq_nil_of_obesity_nil h
    · exact dashMerged_eq_nil_of_activity_nil h
    · exact h
  · intro h
    exact ⟨by simp [analysisCorrOutcome, h], rfl⟩

/-- Witness for C1: at the concrete disjoint-location table the dashboard
warns (not-computable) while the batch query reports the NaN coefficient. -/
theorem correlation_empty_join_detection_witness :
    dashboardCorrOutcome exC1 2023 = CorrOutcome.notComputable
    ∧ analysisCorrOutcome exC1 = CorrOutcome.coeff (pearsonOf [])
    ∧ (pearsonOf []).isNaN = true := by
  have h := correlation_empty_join_detection exC1 2023
  have h2 := h.2 (by decide)
  exact ⟨h.1 (Or.inr (Or.inr (by decide))), h2.1, h2.2⟩

/-- Superstring row for `exC8`: its `Question` strictly contains
`q_obesity` as a proper substring. -/
def exC8row1 : CleanRow :=
  { exC5row1 with
    Year := 2023
    Question := q_obesity ++ " (body mass index of 30 or higher)"
    Data_Value := 33 }

/-- Exact inactivity row for `exC8`. -/
def exC8row2 : CleanRow :=
  { exC5row1 with
    Year := 2023
    LocationAbbr := "TX"
    LocationDesc := "Texas"
    Class := "Physical Activity"
    Question := q_activity
    Data_Value := 26 }

/-- A table where the obesity question appears only as a strict superstring
of `q_obesity`: the substring gate passes but the exact-match selection is
empty. -/
def exC8 : List CleanRow := [exC8row1, exC8row2]

/-- C8: selecting the correlation pair filters on exact `Question`
equality; the substring-based existence check only gates whether the query
is attempted.  Concretely, on `exC8` the gate sees the superstring and
passes, yet exact matching selects no row, so the view falls back to the
warning — the substring check never selects rows. -/
theorem question_exact_match :
    (∀ dfc : List CleanRow,
        (∀ r ∈ obesityRows dfc, r.Question = q_obesity)
      ∧ (∀ r ∈ activityRows dfc, r.Question = q_activity))
  ∧ (∀ (df : List CleanRow) (y : Int),
      (hasQ (corrFilter df y) q_obesity &&
        hasQ (corrFilter df y) q_activity) = false →
        dashboardCorrOutcome df y = CorrOutcome.notComputable)
  ∧ hasQ (corrFilter exC8 2023) q_obesity = true
  ∧ obesityRows (corrFilter exC8 2023) = []
  ∧ dashboardCorrOutcome exC8 2023 = CorrOutcome.notComputable := by
  refine ⟨?_, ?_, ?_, ?_, ?_⟩
  · intro dfc
    constructor
    · intro r hr
      simp only [obesityRows, List.mem_filter, beq_iff_eq] at hr
      exact hr.2
    · intro r hr
      simp only [activityRows, List.mem_filter, beq_iff_eq] at hr
      exact hr.2
  · intro df y h
    exact dashboardCorrOutcome_of_gate_false h
  · decide
  · decide
  · exact dashboardCorrOutcome_of_merged_nil
      (dashMerged_eq_nil_of_obesity_nil (by decide))

/-- Witness for C8: the exact-match fact instantiated at a concrete row of
`exC1`, and the gate fact instantiated at the gate-failing table `exC5`. -/
theorem question_exact_match_witness :
    exC1row1.Question = q_obesity
    ∧ dashboardCorrOutcome exC5 2020 = CorrOutcome.notComputable :=
  ⟨(question_exact_match.1 (corrFilter exC1 2023)).1 exC1row1 (by decide),
   question_exact_match.2.1 exC5 2020 (by decide)⟩
